import Mathlib

/-!
Verification development for the host-side orchestration file
`optixProgressivePhotonMap.cpp` of a progressive photon mapping sample.

The file is shallowly embedded: each host API call the C++ code makes
(context configuration, buffer allocation, program installation, buffer
map/write/unmap, pass launches, GL display) becomes one `HostOp` value, and
each host function (`createContext`, `createMaterial`, `createLight`, the
body of the `glfwRun` frame loop, argument parsing in `main`) becomes a Lean
definition producing the sequence of those operations.  Machine integers are
`Nat` with explicit reduction modulo `2 ^ 32` / `2 ^ 64` where the C code can
wrap.  Floating-point values are not modelled; where the code stores a float
obtained by casting an integer, the operation records the integer.
-/

/-- Constants from the top of the source file. -/
def SAMPLE_NAME : String := "optixProgressivePhotonMap"

def WIDTH : Nat := 768

def HEIGHT : Nat := 768

def MAX_PHOTON_COUNT : Nat := 2

def photon_launch_dim : Nat := 512

/-- Modulus `2 ^ 32` of C `unsigned int` arithmetic. -/
def U32 : Nat := 2 ^ 32

/-- Modulus `2 ^ 64` of C `unsigned long long` arithmetic. -/
def U64 : Nat := 2 ^ 64

/-- One `x |= x >> k` step of `pow2roundup`.  For `a < 2 ^ 32` the result
stays below `2 ^ 32`, so no masking is needed. -/
def orShift (a k : Nat) : Nat := a ||| a >>> k

/-- The five-stage bit smear in the body of `pow2roundup`
(`x |= x>>1; x |= x>>2; x |= x>>4; x |= x>>8; x |= x>>16`). -/
def smear (y : Nat) : Nat :=
  orShift (orShift (orShift (orShift (orShift y 1) 2) 4) 8) 16

/-- Embedding of `pow2roundup` (lines 92-101): `--x` wraps modulo `2 ^ 32`,
then the smear, then `x + 1` wraps modulo `2 ^ 32`. -/
def pow2roundup (x : Nat) : Nat :=
  (smear ((x + (U32 - 1)) % U32) + 1) % U32

/-- Predicate: `y` has a set bit at some position in the window `[i, i + k)`. -/
def hasBitIn (y i k : Nat) : Prop := ∃ j, i ≤ j ∧ j < i + k ∧ y.testBit j = true

theorem testBit_orShift (a k i : Nat) :
    (orShift a k).testBit i = (a.testBit i || a.testBit (k + i)) := by
  rw [orShift, Nat.testBit_or, Nat.testBit_shiftRight]

theorem hasBitIn_orShift (y a k : Nat)
    (ha : ∀ i, a.testBit i = true ↔ hasBitIn y i k) :
    ∀ i, (orShift a k).testBit i = true ↔ hasBitIn y i (k + k) := by
  intro i
  rw [testBit_orShift, Bool.or_eq_true, ha i, Nat.add_comm k i, ha (i + k)]
  constructor
  · rintro (⟨j, h1, h2, h3⟩ | ⟨j, h1, h2, h3⟩) <;> exact ⟨j, by omega, by omega, h3⟩
  · rintro ⟨j, h1, h2, h3⟩
    by_cases hj : j < i + k
    · exact Or.inl ⟨j, h1, hj, h3⟩
    · exact Or.inr ⟨j, by omega, by omega, h3⟩

theorem smear_testBit (y : Nat) :
    ∀ i, (smear y).testBit i = true ↔ hasBitIn y i 32 := by
  have h0 : ∀ i, y.testBit i = true ↔ hasBitIn y i 1 := by
    intro i
    constructor
    · intro h; exact ⟨i, Nat.le_refl i, by omega, h⟩
    · rintro ⟨j, h1, h2, h3⟩
      have : j = i := by omega
      exact this ▸ h3
  have h1 := hasBitIn_orShift y y 1 h0
  have h2 := hasBitIn_orShift y (orShift y 1) 2 h1
  have h4 := hasBitIn_orShift y (orShift (orShift y 1) 2) 4 h2
  have h8 := hasBitIn_orShift y (orShift (orShift (orShift y 1) 2) 4) 8 h4
  have h16 := hasBitIn_orShift y
    (orShift (orShift (orShift (orShift y 1) 2) 4) 8) 16 h8
  exact h16

/-- A positive number has its top bit (position `size - 1`) set. -/
theorem testBit_size_sub_one (y : Nat) (hy : 0 < y) :
    y.testBit (Nat.size y - 1) = true := by
  have hm : 0 < Nat.size y := Nat.size_pos.mpr hy
  have hlow : 2 ^ (Nat.size y - 1) ≤ y := Nat.lt_size.mp (by omega)
  have hhigh : y < 2 ^ Nat.size y := Nat.lt_size_self y
  have hpow : 2 ^ Nat.size y = 2 ^ (Nat.size y - 1) * 2 := by
    rw [← Nat.pow_succ]
    congr 1
    omega
  have hdiv : y / 2 ^ (Nat.size y - 1) = 1 := by
    apply Nat.div_eq_of_lt_le
    · omega
    · rw [hpow] at hhigh
      omega
  rw [Nat.testBit_to_div_mod, hdiv]
  decide

/-- The smear of a 32-bit value is the all-ones mask of its bit width. -/
theorem smear_spec (y : Nat) (hy : y < 2 ^ 32) :
    smear y = 2 ^ Nat.size y - 1 := by
  have hsz : Nat.size y ≤ 32 := Nat.size_le.mpr hy
  apply Nat.eq_of_testBit_eq
  intro i
  rw [Nat.testBit_two_pow_sub_one]
  by_cases hi : i < Nat.size y
  · have hpos : 0 < y := by
      rcases Nat.eq_zero_or_pos y with h | h
      · subst h; simp [Nat.size_zero] at hi
      · exact h
    have hbit := testBit_size_sub_one y hpos
    have : (smear y).testBit i = true :=
      (smear_testBit y i).mpr ⟨Nat.size y - 1, by omega, by omega, hbit⟩
    simp [this, hi]
  · have : ¬ (smear y).testBit i = true := by
      rw [smear_testBit y i]
      rintro ⟨j, h1, h2, h3⟩
      have hj : ¬ j < Nat.size y := by omega
      have : y < 2 ^ j := by
        calc y < 2 ^ Nat.size y := Nat.lt_size_self y
        _ ≤ 2 ^ j := Nat.pow_le_pow_right (by omega) (by omega)
      rw [Nat.testBit_lt_two_pow this] at h3
      exact Bool.false_ne_true h3
    simp only [Bool.not_eq_true] at this
    simp [this, hi]

/-!  Host operation traces.  -/

/-- The `ProgramEnum` of the source (entry-point indices of the three
passes, declared in this order, so `rtpass = 0`, `ppass = 1`, `gather = 2`). -/
inductive ProgramEnum where
  | rtpass
  | ppass
  | gather
deriving DecidableEq, Repr

/-- The C enumerator value of each `ProgramEnum` constant. -/
def ProgramEnum.toNat : ProgramEnum → Nat
  | .rtpass => 0
  | .ppass => 1
  | .gather => 2

/-- Value of `NUM_PROGRAMS`, the trailing enumerator of `ProgramEnum`. -/
def NUM_PROGRAMS : Nat := 3

/-- The struct types whose `sizeof` the host passes to the runtime
(`HitRecord`, `PhotonRecord`, `PPMLight`, all defined in `ppm.h`).  Their
byte sizes are ABI facts of the GPU runtime; the embedding keeps the
`sizeof` argument symbolic, recording which struct size was passed. -/
inductive StructTag where
  | HitRecord
  | PhotonRecord
  | PPMLight
deriving DecidableEq, Repr

/-- Buffer extents: one- or two-dimensional. -/
inductive BufDim where
  | d1 (n : Nat)
  | d2 (w h : Nat)
deriving DecidableEq, Repr

/-- One host-side API operation performed by the C++ file.  Constructors
mirror the calls made in `createContext`, `createMaterial`, `createLight`
and the `glfwRun` frame loop.  Buffers and context variables are identified
by the context-variable name the code attaches them to.  Float stores of
literal constants record only the variable name (`setVarFloat`); float
stores whose value is an integer cast record the integer (`setFloatFromNat`). -/
inductive HostOp where
  | selectDevices
  | setRayTypeCount (n : Nat)
  | setEntryPointCount (n : Nat)
  | setStackSize (n : Nat)
  | setVarUint (name : String) (v : Nat)
  | setVarFloat (name : String)
  | setFloatFromNat (name : String) (v : Nat)
  | createOutputBuffer (name : String) (d : BufDim) (use_pbo : Bool)
  | createBuffer (name : String) (d : BufDim)
  | setElementSize (name : String) (t : StructTag)
  | mapBuffer (name : String)
  | writeBuffer (name : String)
  | unmapBuffer (name : String)
  | setRayGenerationProgram (entry : ProgramEnum) (cuFile fn : String)
  | setExceptionProgram (entry : ProgramEnum) (cuFile fn : String)
  | setMissProgram (entry : ProgramEnum) (cuFile fn : String)
  | setClosestHitProgram (rayType : Nat) (cuFile fn : String)
  | setAnyHitProgram (rayType : Nat) (cuFile fn : String)
  | setUserData (name : String) (t : StructTag)
  | setTexture (name : String)
  | loadGeometry
  | launch (entry : ProgramEnum) (w h : Nat)
  | displayBufferGL (name : String)
  | pollEvents
  | guiFrame
  | displayFps
  | guiRender
  | swapBuffers
deriving DecidableEq, Repr

/-- Local `num_photons` of `createContext` (line 237). -/
def num_photons : Nat := photon_launch_dim * photon_launch_dim * MAX_PHOTON_COUNT

/-- Local `photon_map_size` of `createContext` (line 267). -/
def photon_map_size : Nat := pow2roundup num_photons - 1

/-- Embedding of `createContext` (lines 165-273) as the sequence of host
operations it performs, in source order.  The device-selection loop
(lines 173-186) only queries device attributes and is abstracted as the
single operation `selectDevices`. -/
def createContextOps (use_pbo : Bool) : List HostOp :=
  [ .selectDevices,
    .setRayTypeCount 3,
    .setEntryPointCount NUM_PROGRAMS,
    .setStackSize 800,
    .setVarUint "max_depth" 3,
    .setVarUint "max_photon_count" MAX_PHOTON_COUNT,
    .setVarFloat "scene_epsilon",
    .setVarFloat "alpha",
    .setVarFloat "total_emitted",
    .setVarFloat "frame_number",
    .setVarUint "use_debug_buffer" 0,
    .createOutputBuffer "output_buffer" (.d2 WIDTH HEIGHT) use_pbo,
    .createBuffer "debug_buffer" (.d2 WIDTH HEIGHT),
    .createBuffer "rtpass_output_buffer" (.d2 WIDTH HEIGHT),
    .setElementSize "rtpass_output_buffer" .HitRecord,
    .createBuffer "image_rnd_seeds" (.d2 WIDTH HEIGHT),
    .mapBuffer "image_rnd_seeds",
    .writeBuffer "image_rnd_seeds",
    .unmapBuffer "image_rnd_seeds",
    .setRayGenerationProgram .rtpass "ppm_rtpass.cu" "rtpass_camera",
    .setExceptionProgram .rtpass "ppm_rtpass.cu" "rtpass_exception",
    .setVarFloat "rtpass_bad_color",
    .setMissProgram .rtpass "ppm_rtpass.cu" "rtpass_miss",
    .setVarFloat "rtpass_bg_color",
    .createBuffer "ppass_output_buffer" (.d1 num_photons),
    .setElementSize "ppass_output_buffer" .PhotonRecord,
    .setRayGenerationProgram .ppass "ppm_ppass.cu" "ppass_camera",
    .createBuffer "photon_rnd_seeds" (.d2 photon_launch_dim photon_launch_dim),
    .mapBuffer "photon_rnd_seeds",
    .writeBuffer "photon_rnd_seeds",
    .unmapBuffer "photon_rnd_seeds",
    .setRayGenerationProgram .gather "ppm_gather.cu" "gather",
    .setExceptionProgram .gather "ppm_gather.cu" "gather_exception",
    .createBuffer "photon_map" (.d1 photon_map_size),
    .setElementSize "photon_map" .PhotonRecord ]

/-- Embedding of `createMaterial` (lines 276-287). -/
def createMaterialOps : List HostOp :=
  [ .setClosestHitProgram 0 "ppm_rtpass.cu" "rtpass_closest_hit",
    .setClosestHitProgram 1 "ppm_ppass.cu" "ppass_closest_hit",
    .setAnyHitProgram 2 "ppm_gather.cu" "gather_any_hit" ]

/-- Embedding of `createLight` (lines 309-322).  The float fields of the light
are computed on the host and uploaded in one `setUserData` call of
`sizeof(PPMLight)` bytes. -/
def createLightOps : List HostOp :=
  [ .setUserData "light" .PPMLight,
    .setVarFloat "rtpass_default_radius2",
    .setVarFloat "ambient_light",
    .setTexture "envmap" ]

/-- The `total_emitted` value of line 501: the product
`(unsigned long long)accumulation_frame * photon_launch_dim * photon_launch_dim`
computed in 64-bit unsigned arithmetic (`af1` is the already incremented
counter value at that line). -/
def totalEmittedCount (af1 : Nat) : Nat :=
  af1 * photon_launch_dim * photon_launch_dim % U64

/-- Embedding of one iteration of the `glfwRun` frame loop (lines 447-516),
from `glfwPollEvents` to `glfwSwapBuffers`.  `af` is the value of the
32-bit `accumulation_frame` counter at the point where line 479 records it
into `frame_number` (event handling earlier in the iteration and the GLFW
callbacks may have reset it to 0; those external inputs are summarised by
taking `af` as a parameter).  `camW`/`camH` are `camera.width()` and
`camera.height()`.  Line 479 stores the old counter value and increments
the counter, wrapping modulo `2 ^ 32`; line 480 compares the incremented
value with 1. -/
def frameOps (af camW camH : Nat) : List HostOp :=
  [ .pollEvents, .guiFrame, .displayFps,
    .setFloatFromNat "frame_number" af ] ++
  (if (af + 1) % U32 = 1 then
    [ .launch .rtpass camW camH,
      .setVarFloat "total_emitted" ]
   else []) ++
  [ .mapBuffer "photon_rnd_seeds",
    .writeBuffer "photon_rnd_seeds",
    .unmapBuffer "photon_rnd_seeds",
    .launch .ppass photon_launch_dim photon_launch_dim,
    .setFloatFromNat "total_emitted" (totalEmittedCount ((af + 1) % U32)),
    .launch .gather camW camH,
    .displayBufferGL "output_buffer",
    .guiRender,
    .swapBuffers ]

/-- The new `accumulation_frame` value after one frame-loop iteration whose
record-point value was `af`. -/
def frameNext (af : Nat) : Nat := (af + 1) % U32

/-- The entry points launched by a host-operation sequence, in order. -/
def passLaunches (ops : List HostOp) : List ProgramEnum :=
  ops.filterMap fun op =>
    match op with
    | .launch e _ _ => some e
    | _ => none

/-- Predicate: the operation maps, writes, or unmaps the contents of the
`photon_map` buffer on the host. -/
def isPhotonMapContentWrite : HostOp → Bool
  | .mapBuffer n => n == "photon_map"
  | .writeBuffer n => n == "photon_map"
  | .unmapBuffer n => n == "photon_map"
  | _ => false

/-- The source `.cu` files of all device programs an operation installs. -/
def installedProgramSources (ops : List HostOp) : List String :=
  ops.filterMap fun op =>
    match op with
    | .setRayGenerationProgram _ cu _ => some cu
    | .setExceptionProgram _ cu _ => some cu
    | .setMissProgram _ cu _ => some cu
    | .setClosestHitProgram _ cu _ => some cu
    | .setAnyHitProgram _ cu _ => some cu
    | _ => none

/-- C1: in every frame-loop iteration the photon pass and the gather pass
are both launched, photon pass first; the eye-ray pass is launched exactly
when the accumulation-frame counter is 0 at the point where the frame
number is recorded, and then it precedes the photon pass.  The launch
sequence of the iteration is fully characterised. -/
theorem c1_frame_pass_schedule (af camW camH : Nat) (haf : af < U32) :
    passLaunches (frameOps af camW camH) =
      (if af = 0 then [ProgramEnum.rtpass, .ppass, .gather]
       else [ProgramEnum.ppass, .gather])
    ∧ ((∃ w h, HostOp.launch .rtpass w h ∈ frameOps af camW camH) ↔ af = 0) := by
  simp only [U32] at haf
  have hcond : ((af + 1) % U32 = 1) ↔ af = 0 := by
    simp only [U32]
    constructor
    · intro h; omega
    · intro h; omega
  by_cases h0 : af = 0
  · rw [if_pos h0]
    have hc : (af + 1) % U32 = 1 := hcond.mpr h0
    constructor
    · simp [frameOps, passLaunches, hc]
    · simp [frameOps, hc, h0, U32]
  · rw [if_neg h0]
    have hc : ¬ (af + 1) % U32 = 1 := fun h => h0 (hcond.mp h)
    constructor
    · simp [frameOps, passLaunches, hc]
    · simp [frameOps, hc, h0]

/-- C1 witness: with the counter at 0 the iteration launches the eye-ray,
photon and gather passes in that order. -/
theorem c1_frame_pass_schedule_witness :
    passLaunches (frameOps 0 768 768)
      = [ProgramEnum.rtpass, .ppass, .gather] :=
  ((c1_frame_pass_schedule 0 768 768 (by decide)).1).trans (by decide)

/-- C2: the context is configured with `NUM_PROGRAMS = 3` entry points,
the pass indices are `rtpass = 0`, `ppass = 1`, `gather = 2`, a
ray-generation program is assigned to each of the three entry points, and
the ray-type count is set to 3. -/
theorem c2_three_entry_points (use_pbo : Bool) :
    NUM_PROGRAMS = 3
    ∧ HostOp.setEntryPointCount NUM_PROGRAMS ∈ createContextOps use_pbo
    ∧ HostOp.setRayTypeCount 3 ∈ createContextOps use_pbo
    ∧ ProgramEnum.rtpass.toNat = 0
    ∧ ProgramEnum.ppass.toNat = 1
    ∧ ProgramEnum.gather.toNat = 2
    ∧ ∀ e : ProgramEnum, ∃ cu fn,
        HostOp.setRayGenerationProgram e cu fn ∈ createContextOps use_pbo := by
  refine ⟨rfl, by simp [createContextOps], by simp [createContextOps],
    rfl, rfl, rfl, ?_⟩
  intro e
  cases e
  · exact ⟨"ppm_rtpass.cu", "rtpass_camera", by simp [createContextOps]⟩
  · exact ⟨"ppm_ppass.cu", "ppass_camera", by simp [createContextOps]⟩
  · exact ⟨"ppm_gather.cu", "gather", by simp [createContextOps]⟩

/-- C3: the host allocates the `photon_map` buffer during context creation
and no host operation — neither later in `createContext` nor anywhere in a
frame-loop iteration (which launches the gather pass) — maps, writes or
unmaps its contents; the photon map is filled only by GPU device programs. -/
theorem c3_photon_map_untouched (use_pbo : Bool) (af camW camH : Nat) :
    HostOp.createBuffer "photon_map" (.d1 photon_map_size)
      ∈ createContextOps use_pbo
    ∧ ((createContextOps use_pbo ++ frameOps af camW camH).all
        fun op => !(isPhotonMapContentWrite op)) = true := by
  constructor
  · simp [createContextOps]
  · by_cases hc : (af + 1) % U32 = 1 <;>
      simp [createContextOps, frameOps, isPhotonMapContentWrite, hc]

/-- C4: every device program installed into the context or the material is
created from the PTX compiled from one of `ppm_rtpass.cu`, `ppm_ppass.cu`,
`ppm_gather.cu`. -/
theorem c4_programs_from_ptx (use_pbo : Bool) (cu : String)
    (h : cu ∈ installedProgramSources (createContextOps use_pbo ++ createMaterialOps)) :
    cu = "ppm_rtpass.cu" ∨ cu = "ppm_ppass.cu" ∨ cu = "ppm_gather.cu" := by
  simp [installedProgramSources, createContextOps, createMaterialOps] at h
  tauto

/-- C4 witness: the source file of the eye-ray pass camera program is among the
installed program sources and is one of the three `.cu` files. -/
theorem c4_programs_from_ptx_witness :
    "ppm_rtpass.cu" = "ppm_rtpass.cu" ∨ "ppm_rtpass.cu" = "ppm_ppass.cu"
      ∨ "ppm_rtpass.cu" = "ppm_gather.cu" :=
  c4_programs_from_ptx true "ppm_rtpass.cu"
    (by simp [installedProgramSources, createContextOps, createMaterialOps])

/-- The `setElementSize` struct tags recorded for a named buffer. -/
def elemSizesOf (name : String) (ops : List HostOp) : List StructTag :=
  ops.filterMap fun op =>
    match op with
    | .setElementSize n t => if n = name then some t else none
    | _ => none

/-- The `setUserData` struct tags recorded for a named context variable. -/
def userDataOf (name : String) (ops : List HostOp) : List StructTag :=
  ops.filterMap fun op =>
    match op with
    | .setUserData n t => if n = name then some t else none
    | _ => none

/-- C5: the output, debug, eye-ray hit-record and image random-seed buffers
are allocated at `WIDTH x HEIGHT = 768 x 768`; the photon output buffer has
`photon_launch_dim^2 * MAX_PHOTON_COUNT = 512 * 512 * 2 = 524288` elements;
the photon map buffer has `pow2roundup 524288 - 1 = 524287` elements. -/
theorem c5_buffer_sizes (use_pbo : Bool) :
    WIDTH = 768 ∧ HEIGHT = 768
    ∧ HostOp.createOutputBuffer "output_buffer" (.d2 WIDTH HEIGHT) use_pbo
        ∈ createContextOps use_pbo
    ∧ HostOp.createBuffer "debug_buffer" (.d2 WIDTH HEIGHT)
        ∈ createContextOps use_pbo
    ∧ HostOp.createBuffer "rtpass_output_buffer" (.d2 WIDTH HEIGHT)
        ∈ createContextOps use_pbo
    ∧ HostOp.createBuffer "image_rnd_seeds" (.d2 WIDTH HEIGHT)
        ∈ createContextOps use_pbo
    ∧ HostOp.createBuffer "ppass_output_buffer" (.d1 num_photons)
        ∈ createContextOps use_pbo
    ∧ num_photons = photon_launch_dim * photon_launch_dim * MAX_PHOTON_COUNT
    ∧ num_photons = 524288
    ∧ HostOp.createBuffer "photon_map" (.d1 photon_map_size)
        ∈ createContextOps use_pbo
    ∧ photon_map_size = pow2roundup 524288 - 1
    ∧ photon_map_size = 524287 := by
  refine ⟨rfl, rfl, by simp [createContextOps], by simp [createContextOps],
    by simp [createContextOps], by simp [createContextOps],
    by simp [createContextOps], rfl, by decide,
    by simp [createContextOps], by decide, by decide⟩

/-- C6: the element size of the eye-ray pass output buffer is set to exactly
`sizeof(HitRecord)`, those of the photon output buffer and the photon map to
exactly `sizeof(PhotonRecord)`, and the light is uploaded as user data of
exactly `sizeof(PPMLight)` bytes; no other element size is ever set on
those buffers. -/
theorem c6_record_layouts (use_pbo : Bool) :
    elemSizesOf "rtpass_output_buffer" (createContextOps use_pbo)
      = [StructTag.HitRecord]
    ∧ elemSizesOf "ppass_output_buffer" (createContextOps use_pbo)
      = [StructTag.PhotonRecord]
    ∧ elemSizesOf "photon_map" (createContextOps use_pbo)
      = [StructTag.PhotonRecord]
    ∧ userDataOf "light" createLightOps = [StructTag.PPMLight] := by
  refine ⟨?_, ?_, ?_, ?_⟩ <;>
    simp [elemSizesOf, userDataOf, createContextOps, createLightOps]

/-- C9: every frame-loop iteration records `total_emitted` as the 64-bit
product `accumulation_frame * 512 * 512` (with `accumulation_frame` the
incremented counter `frameNext af`), and for every 32-bit counter value the
64-bit product is exact: no wraparound modulo `2 ^ 64` occurs. -/
theorem c9_total_emitted_exact (af camW camH : Nat) (_haf : af < U32) :
    HostOp.setFloatFromNat "total_emitted" (totalEmittedCount (frameNext af))
      ∈ frameOps af camW camH
    ∧ totalEmittedCount (frameNext af)
      = frameNext af * photon_launch_dim * photon_launch_dim := by
  constructor
  · by_cases hc : (af + 1) % U32 = 1 <;> simp [frameOps, frameNext, hc]
  · have h1 : frameNext af < U32 := by
      simp only [frameNext, U32]
      omega
    simp only [totalEmittedCount, photon_launch_dim, U64, U32] at *
    omega

/-- C9 witness: on the first frame the recorded photon total is
`1 * 512 * 512 = 262144`, exactly. -/
theorem c9_total_emitted_exact_witness :
    totalEmittedCount (frameNext 0) = 262144
    ∧ HostOp.setFloatFromNat "total_emitted" (totalEmittedCount (frameNext 0))
        ∈ frameOps 0 768 768 :=
  ⟨by decide, (c9_total_emitted_exact 0 768 768 (by decide)).1⟩

/-- C8: for `1 ≤ x ≤ 2^31` the function `pow2roundup` returns the smallest
power of two greater than or equal to `x`; for `x = 0` and for every 32-bit
`x > 2^31` the result wraps modulo `2^32` to 0. -/
theorem c8_pow2roundup_correct (x : Nat) (hx : x < U32) :
    (1 ≤ x → x ≤ 2 ^ 31 →
      (∃ k, pow2roundup x = 2 ^ k) ∧ x ≤ pow2roundup x ∧
        ∀ k, x ≤ 2 ^ k → pow2roundup x ≤ 2 ^ k)
    ∧ (x = 0 → pow2roundup x = 0)
    ∧ (2 ^ 31 < x → pow2roundup x = 0) := by
  have p31 : (2 : Nat) ^ 31 = 2147483648 := by norm_num
  have p32 : (2 : Nat) ^ 32 = 4294967296 := by norm_num
  simp only [U32] at hx
  refine ⟨?_, ?_, ?_⟩
  · intro hx1 hx31
    have hy : (x + (U32 - 1)) % U32 = x - 1 := by
      simp only [U32, p32]
      omega
    have hxlt : x - 1 < 2 ^ 32 := by omega
    have hs31 : Nat.size (x - 1) ≤ 31 := by
      apply Nat.size_le.mpr
      omega
    have hsm : smear (x - 1) = 2 ^ Nat.size (x - 1) - 1 := smear_spec _ hxlt
    have hpos : 0 < 2 ^ Nat.size (x - 1) := Nat.pos_pow_of_pos _ (by norm_num)
    have hlt32 : 2 ^ Nat.size (x - 1) < 2 ^ 32 :=
      Nat.pow_lt_pow_right (by norm_num) (by omega)
    have hres : pow2roundup x = 2 ^ Nat.size (x - 1) := by
      rw [pow2roundup, hy, hsm]
      have hsum : 2 ^ Nat.size (x - 1) - 1 + 1 = 2 ^ Nat.size (x - 1) := by omega
      rw [hsum]
      simp only [U32]
      exact Nat.mod_eq_of_lt hlt32
    refine ⟨⟨Nat.size (x - 1), hres⟩, ?_, ?_⟩
    · rw [hres]
      have hself : x - 1 < 2 ^ Nat.size (x - 1) := Nat.lt_size_self (x - 1)
      omega
    · intro k hk
      rw [hres]
      apply Nat.pow_le_pow_right (by norm_num)
      apply Nat.size_le.mpr
      have hp : 0 < 2 ^ k := Nat.pos_pow_of_pos _ (by norm_num)
      omega
  · rintro rfl
    decide
  · intro h31
    rw [p31] at h31
    have hy : (x + (U32 - 1)) % U32 = x - 1 := by
      simp only [U32, p32]
      omega
    have hxlt : x - 1 < 2 ^ 32 := by omega
    have hsz : Nat.size (x - 1) = 32 := by
      have hlo : 31 < Nat.size (x - 1) := by
        apply Nat.lt_size.mpr
        omega
      have hup : Nat.size (x - 1) ≤ 32 := Nat.size_le.mpr hxlt
      omega
    rw [pow2roundup, hy, smear_spec _ hxlt, hsz]
    simp only [U32, p32]

/-- C8 witness: `pow2roundup 5 = 8`, which is a power of two, is at least 5,
and is the least such power of two bound shown at `2 ^ 3`. -/
theorem c8_pow2roundup_correct_witness :
    pow2roundup 5 = 8 ∧ 5 ≤ pow2roundup 5 ∧ pow2roundup 5 ≤ 2 ^ 3 :=
  ⟨by decide, ((c8_pow2roundup_correct 5 (by decide)).1 (by decide) (by decide)).2.1,
    ((c8_pow2roundup_correct 5 (by decide)).1 (by decide) (by decide)).2.2 3 (by decide)⟩

/-!  Command-line parsing (`main`, lines 549-586).  -/

/-- The mutable locals of the option loop in `main`. -/
structure ParseConfig where
  use_pbo : Bool
  out_file : String
  mesh_files : List String
deriving DecidableEq, Repr

/-- Initial state: `use_pbo = true`, empty `out_file`, no mesh files. -/
def initialConfig : ParseConfig := ⟨true, "", []⟩

/-- Outcome of the option loop: either `printUsageAndExit` ran (which calls
`exit(1)`), or the loop finished with the accumulated configuration. -/
inductive ParseResult where
  | usageExit (status : Nat)
  | ok (cfg : ParseConfig)
deriving DecidableEq, Repr

/-- The option spellings recognised by `main`. -/
def optionNames : List String := ["-h", "--help", "-f", "--file", "-n", "--nopbo"]

/-- Test for `arg[0] == '-'`: true when the first character of the argument
is a dash (false for the empty string, where `arg[0]` reads the NUL). -/
def startsWithDash (s : String) : Bool :=
  match s.data with
  | [] => false
  | c :: _ => c == '-'

/-- Embedding of the argument loop of `main` (lines 555-586): `-h`/`--help`
prints usage and exits 1; `-f`/`--file` consumes the following argument as
the output file, printing usage and exiting 1 when it is the last argument;
`-n`/`--nopbo` clears `use_pbo`; any other argument starting with a dash
prints usage and exits 1; anything else is collected as a mesh file. -/
def parseArgs : List String → ParseConfig → ParseResult
  | [], cfg => .ok cfg
  | a :: rest, cfg =>
    if a = "-h" ∨ a = "--help" then .usageExit 1
    else if a = "-f" ∨ a = "--file" then
      match rest with
      | [] => .usageExit 1
      | f :: rest2 => parseArgs rest2 { cfg with out_file := f }
    else if a = "-n" ∨ a = "--nopbo" then
      parseArgs rest { cfg with use_pbo := false }
    else if startsWithDash a then .usageExit 1
    else parseArgs rest { cfg with mesh_files := cfg.mesh_files ++ [a] }

/-- The coarse phases of `main` after the option loop. -/
inductive MainStep where
  | printUsage
  | exitProgram (status : Nat)
  | createWindow
  | setupContext
  | runLoop
deriving DecidableEq, Repr

/-- Phase trace of `main`: a usage exit happens before any window or
context is created; otherwise the window and the context are set up and
then `glfwRun` is entered only when `out_file` is empty (line 618) — the
batch-mode branch for a nonempty `out_file` is an empty TODO (line 624)
and `main` just returns. -/
def mainTrace (args : List String) : List MainStep :=
  match parseArgs args initialConfig with
  | .usageExit s => [.printUsage, .exitProgram s]
  | .ok cfg =>
    [.createWindow, .setupContext] ++
      (if cfg.out_file = "" then [.runLoop] else [])

/-- C10 counterexample: on the command line `-f --bogus`, the argument
`--bogus` begins with a dash and is none of the recognised options, yet the
program does not print usage and exit: `--bogus` is consumed as the
`-f` output file name and `main` proceeds to create the window and the
context (and, `out_file` being nonempty, skips the display loop). -/
theorem c10_counterexample :
    startsWithDash "--bogus" = true
    ∧ ¬ "--bogus" ∈ optionNames
    ∧ parseArgs ["-f", "--bogus"] initialConfig
        = .ok { use_pbo := true, out_file := "--bogus", mesh_files := [] }
    ∧ mainTrace ["-f", "--bogus"]
        = [MainStep.createWindow, .setupContext] := by
  refine ⟨by decide, by decide, by decide, by decide⟩

/-- C10 amended: when the option loop examines an argument (one not
consumed as the file name of a preceding `-f`/`--file`): `-f`/`--file`
with nothing after it prints usage and exits with status 1; an argument
beginning with a dash that is none of the six recognised option spellings
prints usage and exits with status 1; an argument not beginning with a
dash is appended to the mesh-file list; and every usage exit happens
before any window or context is created. -/
theorem c10_arg_parsing_amended (cfg : ParseConfig) (a : String)
    (rest args : List String) :
    ((a = "-f" ∨ a = "--file") → parseArgs [a] cfg = .usageExit 1)
    ∧ (startsWithDash a = true → ¬ a ∈ optionNames →
        parseArgs (a :: rest) cfg = .usageExit 1)
    ∧ (startsWithDash a = false →
        parseArgs (a :: rest) cfg
          = parseArgs rest { cfg with mesh_files := cfg.mesh_files ++ [a] })
    ∧ (parseArgs args initialConfig = .usageExit 1 →
        mainTrace args = [MainStep.printUsage, .exitProgram 1]) := by
  refine ⟨?_, ?_, ?_, ?_⟩
  · rintro (rfl | rfl) <;> rfl
  · intro hdash hmem
    simp only [optionNames, List.mem_cons, List.not_mem_nil, or_false] at hmem
    push_neg at hmem
    obtain ⟨h1, h2, h3, h4, h5, h6⟩ := hmem
    rw [parseArgs.eq_def]
    simp [h1, h2, h3, h4, h5, h6, hdash]
  · intro hdash
    have h1 : a ≠ "-h" := by rintro rfl; exact absurd hdash (by decide)
    have h2 : a ≠ "--help" := by rintro rfl; exact absurd hdash (by decide)
    have h3 : a ≠ "-f" := by rintro rfl; exact absurd hdash (by decide)
    have h4 : a ≠ "--file" := by rintro rfl; exact absurd hdash (by decide)
    have h5 : a ≠ "-n" := by rintro rfl; exact absurd hdash (by decide)
    have h6 : a ≠ "--nopbo" := by rintro rfl; exact absurd hdash (by decide)
    rw [parseArgs.eq_def]
    simp [h1, h2, h3, h4, h5, h6, hdash]
  · intro h
    simp [mainTrace, h]

/-- C10 amended witness: a final `-f` makes the parse exit with usage
status 1, and a usage exit yields the trace without window or context
creation. -/
theorem c10_arg_parsing_amended_witness :
    parseArgs ["-f"] initialConfig = .usageExit 1
    ∧ mainTrace ["-h"] = [MainStep.printUsage, .exitProgram 1] :=
  ⟨(c10_arg_parsing_amended initialConfig "-f" [] ["-h"]).1 (Or.inl rfl),
    (c10_arg_parsing_amended initialConfig "-f" [] ["-h"]).2.2.2 (by decide)⟩
